import Mathlib

/-!
Verification of `src/library_messages.c` (yotredash): a diagnostic bridge
that forwards ALSA and JACK library messages to a stored logging callback.

Shallow embedding: the process-wide globals (`rust_log` and the two
libraries' handler slots) become an explicit `BridgeState`; the three
adapter functions become pure functions from a state and their C arguments
to the `Option` of the `(callback, severity, tag, message)` call they make
(`none` models the null-pointer-dereference branch when `rust_log` is
unset).  C strings are `List Char` (content bytes, terminator excluded);
`vsnprintf` is modelled by the `List Char` it stores and the byte count it
writes.  The variadic `(fmt, args...)` pair is abstracted by its full
rendering, a `List Char`, since the claims quantify over renderings.
-/

namespace LibraryMessages

/-- The three adapter functions of `library_messages.c`, as values that can
sit in an external library's handler slot. -/
inductive AdapterFn where
  | alsa_error_handler
  | jack_info_handler
  | jack_error_handler
  deriving DecidableEq, Repr

/-- The process-wide mutable state of the bridge: the global
`rust_callback rust_log` (zero-initialised, hence `Option`), and the three
handler slots of the two external libraries (`none` = not one of our
adapters). The callback type `C` is abstract: the C code only stores and
compares/calls the pointer. -/
structure BridgeState (C : Type) where
  rust_log : Option C
  snd_lib_error_handler_slot : Option AdapterFn
  jack_info_function_slot : Option AdapterFn
  jack_error_function_slot : Option AdapterFn
  deriving DecidableEq, Repr

/-- The initial process state: `rust_callback rust_log;` is a zero-initialised
global (NULL), and none of our adapters is installed yet. -/
def initState (C : Type) : BridgeState C :=
  ⟨none, none, none, none⟩

/-- One primitive side effect performed by `set_message_handler`, in order:
the store to the global `rust_log`, then the three external registration
calls `snd_lib_error_set_handler`, `jack_set_info_function`,
`jack_set_error_function`. -/
inductive RegStep (C : Type) where
  | store_rust_log (c : C)
  | snd_lib_error_set_handler (h : AdapterFn)
  | jack_set_info_function (h : AdapterFn)
  | jack_set_error_function (h : AdapterFn)
  deriving DecidableEq, Repr

/-- Effect of one registration step on the process state. The three
external setters are modelled from the spec description of the library
calls: each overwrites its library's handler slot. -/
def applyRegStep {C : Type} (s : BridgeState C) : RegStep C → BridgeState C
  | .store_rust_log c => { s with rust_log := some c }
  | .snd_lib_error_set_handler h => { s with snd_lib_error_handler_slot := some h }
  | .jack_set_info_function h => { s with jack_info_function_slot := some h }
  | .jack_set_error_function h => { s with jack_error_function_slot := some h }

/-- The sequence of side effects of `set_message_handler(callback)`, in
source order: store the callback first, then install the three adapters. -/
def set_message_handler_steps {C : Type} (callback : C) : List (RegStep C) :=
  [.store_rust_log callback,
   .snd_lib_error_set_handler .alsa_error_handler,
   .jack_set_info_function .jack_info_handler,
   .jack_set_error_function .jack_error_handler]

/-- `set_message_handler(callback)`: runs its side-effect sequence on the
process state. The C function returns `void`; here the result is the
updated state only. -/
def set_message_handler {C : Type} (callback : C) (s : BridgeState C) : BridgeState C :=
  (set_message_handler_steps callback).foldl applyRegStep s

/-- One invocation of the stored logging callback: the callback value that
was called together with the `(severity, tag, message)` triple it received.
`severity` is the C `uint8_t` argument (only 2 and 3 ever occur, so no
modular reduction is needed). -/
structure LogEvent (C : Type) where
  callback : C
  severity : Nat
  tag : String
  message : List Char
  deriving DecidableEq, Repr

/-- The call `rust_log(severity, tag, message)`: reads the global function
pointer and calls it. `none` is the null-dereference branch (global still
NULL). -/
def rust_log_call {C : Type} (s : BridgeState C) (severity : Nat) (tag : String)
    (message : List Char) : Option (LogEvent C) :=
  s.rust_log.map fun cb => ⟨cb, severity, tag, message⟩

/-- Model of C99 `vsnprintf(buf, size, fmt, args)` with `size > 0`, as the
C-string content it leaves in `buf`: at most `size - 1` bytes of the full
rendering, then a null terminator.  `rendered` is the full rendering of
`(fmt, args...)`, terminator excluded. -/
def vsnprintf_stored (size : Nat) (rendered : List Char) : List Char :=
  rendered.take (size - 1)

/-- Number of bytes `vsnprintf(buf, size, fmt, args)` writes into `buf` for
`size > 0`: the stored content plus the null terminator. -/
def vsnprintf_bytes_written (size : Nat) (rendered : List Char) : Nat :=
  min rendered.length (size - 1) + 1

/-- `alsa_error_handler(file, line, function, err, fmt, ...)`: declares
`const int len = 1024; char msg[len];`, renders with
`vsnprintf(msg, len - 1, fmt, argptr)` and forwards
`rust_log(3, "yotredash::alsa", msg)`.  The `file`, `line`, `function` and
`err` parameters are received but unused, exactly as in the source. -/
def alsa_error_handler {C : Type} (s : BridgeState C)
    (file : String) (line : Int) (function : String) (err : Int)
    (rendered : List Char) : Option (LogEvent C) :=
  let len : Nat := 1024
  let msg : List Char := vsnprintf_stored (len - 1) rendered
  rust_log_call s 3 "yotredash::alsa" msg

/-- Size in bytes of the stack buffer `char msg[len]` of
`alsa_error_handler`. -/
def alsa_buffer_capacity : Nat := 1024

/-- Bytes written into the stack buffer `msg` by the `vsnprintf` call of
`alsa_error_handler`, for a given full rendering: size argument is
`len - 1 = 1023`. -/
def alsa_bytes_written (rendered : List Char) : Nat :=
  let len : Nat := 1024
  vsnprintf_bytes_written (len - 1) rendered

/-- `jack_info_handler(msg)`: forwards `rust_log(2, "yotredash::jack", msg)`
with the incoming string pointer, unmodified. -/
def jack_info_handler {C : Type} (s : BridgeState C) (msg : List Char) :
    Option (LogEvent C) :=
  rust_log_call s 2 "yotredash::jack" msg

/-- `jack_error_handler(msg)`: forwards `rust_log(3, "yotredash::jack", msg)`
with the incoming string pointer, unmodified. -/
def jack_error_handler {C : Type} (s : BridgeState C) (msg : List Char) :
    Option (LogEvent C) :=
  rust_log_call s 3 "yotredash::jack" msg

/-- Anatomy of a successful `rust_log` call: the event records exactly the
arguments passed and the stored callback. -/
theorem rust_log_call_eq_some {C : Type} {s : BridgeState C} {severity : Nat}
    {tag : String} {message : List Char} {e : LogEvent C}
    (h : rust_log_call s severity tag message = some e) :
    s.rust_log = some e.callback ∧ e.severity = severity ∧ e.tag = tag ∧
      e.message = message := by
  unfold rust_log_call at h
  cases hcb : s.rust_log with
  | none => rw [hcb] at h; simp [Option.map] at h
  | some cb =>
      rw [hcb] at h
      simp [Option.map] at h
      subst h
      exact ⟨rfl, rfl, rfl, rfl⟩

/-- Claim C3: on every invocation of each of the three adapters, the
forwarded (severity, source-tag) pair is fixed: `alsa_error_handler`
forwards severity 3 with tag `"yotredash::alsa"`, `jack_info_handler`
severity 2 with tag `"yotredash::jack"`, and `jack_error_handler` severity
3 with tag `"yotredash::jack"`. -/
theorem C3_fixed_severity_tag_pairs {C : Type} (s : BridgeState C)
    (file : String) (line : Int) (function : String) (err : Int)
    (rendered msg1 msg2 : List Char) (e1 e2 e3 : LogEvent C)
    (h1 : alsa_error_handler s file line function err rendered = some e1)
    (h2 : jack_info_handler s msg1 = some e2)
    (h3 : jack_error_handler s msg2 = some e3) :
    (e1.severity = 3 ∧ e1.tag = "yotredash::alsa") ∧
    (e2.severity = 2 ∧ e2.tag = "yotredash::jack") ∧
    (e3.severity = 3 ∧ e3.tag = "yotredash::jack") := by
  obtain ⟨-, hs1, ht1, -⟩ := rust_log_call_eq_some h1
  obtain ⟨-, hs2, ht2, -⟩ := rust_log_call_eq_some h2
  obtain ⟨-, hs3, ht3, -⟩ := rust_log_call_eq_some h3
  exact ⟨⟨hs1, ht1⟩, ⟨hs2, ht2⟩, ⟨hs3, ht3⟩⟩

/-- Witness for C3 at a concrete registered state and concrete messages. -/
theorem C3_fixed_severity_tag_pairs_witness :
    (LogEvent.mk 0 3 "yotredash::alsa" [] : LogEvent Nat).severity = 3 ∧
    (LogEvent.mk 0 3 "yotredash::alsa" [] : LogEvent Nat).tag = "yotredash::alsa" ∧
    (LogEvent.mk 0 2 "yotredash::jack" [] : LogEvent Nat).severity = 2 := by
  have h := C3_fixed_severity_tag_pairs (C := Nat)
    (set_message_handler 0 (initState Nat)) "" 0 "" 0 [] [] []
    ⟨0, 3, "yotredash::alsa", []⟩ ⟨0, 2, "yotredash::jack", []⟩
    ⟨0, 3, "yotredash::jack", []⟩ rfl rfl rfl
  exact ⟨h.1.1, h.1.2, h.2.1.1⟩

/-- Claim C4: `set_message_handler(callback)` stores the callback in the
process-wide `rust_log` reference and installs the three adapter functions
in the three handler slots; its side-effect sequence stores the callback
strictly before every installation step, and the C function returns void
(here: the updated state only). -/
theorem C4_registration_effects {C : Type} (callback : C) (s : BridgeState C) :
    (set_message_handler callback s).rust_log = some callback ∧
    (set_message_handler callback s).snd_lib_error_handler_slot =
      some AdapterFn.alsa_error_handler ∧
    (set_message_handler callback s).jack_info_function_slot =
      some AdapterFn.jack_info_handler ∧
    (set_message_handler callback s).jack_error_function_slot =
      some AdapterFn.jack_error_handler ∧
    set_message_handler_steps callback =
      RegStep.store_rust_log callback ::
        [RegStep.snd_lib_error_set_handler AdapterFn.alsa_error_handler,
         RegStep.jack_set_info_function AdapterFn.jack_info_handler,
         RegStep.jack_set_error_function AdapterFn.jack_error_handler] ∧
    set_message_handler callback s =
      (set_message_handler_steps callback).foldl applyRegStep s :=
  ⟨rfl, rfl, rfl, rfl, rfl, rfl⟩

/-- Claim C5: registering `c1` and then `c2` leaves the bridge in exactly
the state of registering `c2` alone — last registration wins, and the
handler slots are re-installed identically. -/
theorem C5_last_registration_wins {C : Type} (c1 c2 : C) (s : BridgeState C) :
    set_message_handler c2 (set_message_handler c1 s) =
      set_message_handler c2 s :=
  rfl

/-- Claim C6: the two JACK pass-through adapters forward the incoming
message content to the stored callback unchanged. -/
theorem C6_jack_passthrough_unchanged {C : Type} (s : BridgeState C)
    (msg1 msg2 : List Char) (e1 e2 : LogEvent C)
    (h1 : jack_info_handler s msg1 = some e1)
    (h2 : jack_error_handler s msg2 = some e2) :
    e1.message = msg1 ∧ e2.message = msg2 := by
  obtain ⟨-, -, -, hm1⟩ := rust_log_call_eq_some h1
  obtain ⟨-, -, -, hm2⟩ := rust_log_call_eq_some h2
  exact ⟨hm1, hm2⟩

/-- Witness for C6: the spec's scenario 2 message "client registered" is
forwarded verbatim by the info adapter of a registered bridge. -/
theorem C6_jack_passthrough_unchanged_witness :
    (LogEvent.mk 0 2 "yotredash::jack" (String.toList "client registered") :
        LogEvent Nat).message = String.toList "client registered" ∧
    (LogEvent.mk 0 3 "yotredash::jack" (String.toList "err") :
        LogEvent Nat).message = String.toList "err" :=
  C6_jack_passthrough_unchanged (C := Nat)
    (set_message_handler 0 (initState Nat))
    (String.toList "client registered") (String.toList "err")
    ⟨0, 2, "yotredash::jack", String.toList "client registered"⟩
    ⟨0, 3, "yotredash::jack", String.toList "err"⟩ rfl rfl

/-- Claim C7: the `file`, `line`, `function` and `err` arguments of
`alsa_error_handler` have no influence on the forwarded triple: two
invocations with the same rendering (same format string and arguments) but
arbitrary different values of those four inputs produce identical results. -/
theorem C7_discarded_fields_no_influence {C : Type} (s : BridgeState C)
    (file1 file2 : String) (line1 line2 : Int) (function1 function2 : String)
    (err1 err2 : Int) (rendered : List Char) :
    alsa_error_handler s file1 line1 function1 err1 rendered =
      alsa_error_handler s file2 line2 function2 err2 rendered :=
  rfl

/-- Claim C8: once `set_message_handler` has been called, every invocation
of each of the three adapters calls a valid (non-null) stored callback:
the null-dereference branch (`none`) is unreachable from any state produced
by registration. -/
theorem C8_no_null_dereference_after_registration {C : Type} (callback : C)
    (s0 : BridgeState C) (file : String) (line : Int) (function : String)
    (err : Int) (rendered msg1 msg2 : List Char) :
    (alsa_error_handler (set_message_handler callback s0)
        file line function err rendered).isSome = true ∧
    (jack_info_handler (set_message_handler callback s0) msg1).isSome = true ∧
    (jack_error_handler (set_message_handler callback s0) msg2).isSome = true :=
  ⟨rfl, rfl, rfl⟩

/-- Claim C9: for every rendering, the `vsnprintf` call of
`alsa_error_handler` writes at most 1023 bytes (null terminator included)
into the 1024-byte stack buffer, so the write stays in bounds and the
forwarded message is a null-terminated string of at most 1022 characters. -/
theorem C9_bounded_buffer_write {C : Type} (s : BridgeState C)
    (file : String) (line : Int) (function : String) (err : Int)
    (rendered : List Char) (e : LogEvent C)
    (h : alsa_error_handler s file line function err rendered = some e) :
    alsa_bytes_written rendered ≤ 1023 ∧
    alsa_bytes_written rendered ≤ alsa_buffer_capacity ∧
    e.message.length ≤ 1022 := by
  have h' : rust_log_call s 3 "yotredash::alsa"
      (vsnprintf_stored 1023 rendered) = some e := h
  obtain ⟨-, -, -, hm⟩ := rust_log_call_eq_some h'
  refine ⟨?_, ?_, ?_⟩
  · simp only [alsa_bytes_written, vsnprintf_bytes_written]
    omega
  · simp only [alsa_bytes_written, vsnprintf_bytes_written, alsa_buffer_capacity]
    omega
  · rw [hm]
    simp only [vsnprintf_stored, List.length_take]
    omega

/-- Witness for C9 at a concrete registered state and rendering. -/
theorem C9_bounded_buffer_write_witness :
    alsa_bytes_written (String.toList "hi") ≤ 1023 ∧
    alsa_bytes_written (String.toList "hi") ≤ alsa_buffer_capacity ∧
    (LogEvent.mk 0 3 "yotredash::alsa" (String.toList "hi") :
        LogEvent Nat).message.length ≤ 1022 :=
  C9_bounded_buffer_write (C := Nat) (set_message_handler 0 (initState Nat))
    "" 0 "" 0 (String.toList "hi")
    ⟨0, 3, "yotredash::alsa", String.toList "hi"⟩ rfl

/-- Claim C10: every triple the three adapters ever pass to the stored
callback has severity in {2, 3} and source tag equal to one of the two
fixed literals `"yotredash::alsa"` and `"yotredash::jack"`. -/
theorem C10_severity_tag_invariant {C : Type} (s : BridgeState C)
    (file : String) (line : Int) (function : String) (err : Int)
    (rendered msg1 msg2 : List Char) (e : LogEvent C)
    (h : alsa_error_handler s file line function err rendered = some e ∨
         jack_info_handler s msg1 = some e ∨
         jack_error_handler s msg2 = some e) :
    (e.severity = 2 ∨ e.severity = 3) ∧
    (e.tag = "yotredash::alsa" ∨ e.tag = "yotredash::jack") := by
  rcases h with h | h | h
  · have h' : rust_log_call s 3 "yotredash::alsa"
        (vsnprintf_stored 1023 rendered) = some e := h
    obtain ⟨-, hs, ht, -⟩ := rust_log_call_eq_some h'
    exact ⟨Or.inr hs, Or.inl ht⟩
  · obtain ⟨-, hs, ht, -⟩ := rust_log_call_eq_some h
    exact ⟨Or.inl hs, Or.inr ht⟩
  · obtain ⟨-, hs, ht, -⟩ := rust_log_call_eq_some h
    exact ⟨Or.inr hs, Or.inr ht⟩

/-- Witness for C10 via a concrete JACK info invocation on a registered
bridge. -/
theorem C10_severity_tag_invariant_witness :
    ((LogEvent.mk 0 2 "yotredash::jack" [] : LogEvent Nat).severity = 2 ∨
     (LogEvent.mk 0 2 "yotredash::jack" [] : LogEvent Nat).severity = 3) ∧
    ((LogEvent.mk 0 2 "yotredash::jack" [] : LogEvent Nat).tag = "yotredash::alsa" ∨
     (LogEvent.mk 0 2 "yotredash::jack" [] : LogEvent Nat).tag = "yotredash::jack") :=
  C10_severity_tag_invariant (C := Nat) (set_message_handler 0 (initState Nat))
    "" 0 "" 0 [] [] [] ⟨0, 2, "yotredash::jack", []⟩ (Or.inr (Or.inl rfl))

/-- Claim C1 as stated is false: for the 1024-byte rendering
`replicate 1024 'a'` (length > 1023), the message forwarded by
`alsa_error_handler` is not the first 1023 bytes of the rendering — it is
one byte shorter, because `vsnprintf(msg, len - 1, ...)` with
`len = 1024` passes size 1023 and `vsnprintf` itself reserves one byte of
that for the terminator. -/
theorem C1_counterexample :
    (List.replicate 1024 'a').length > 1023 ∧
    (alsa_error_handler (set_message_handler 0 (initState Nat)) "" 0 "" 0
        (List.replicate 1024 'a')).map LogEvent.message ≠
      some ((List.replicate 1024 'a').take 1023) := by
  constructor
  · simp only [List.length_replicate]
    omega
  · intro h
    have hL : (alsa_error_handler (set_message_handler 0 (initState Nat))
        "" 0 "" 0 (List.replicate 1024 'a')).map LogEvent.message =
        some (vsnprintf_stored 1023 (List.replicate 1024 'a')) := rfl
    rw [hL] at h
    have h2 : vsnprintf_stored 1023 (List.replicate 1024 'a') =
        (List.replicate 1024 'a').take 1023 := Option.some.inj h
    have h3 := congrArg List.length h2
    simp only [vsnprintf_stored, List.length_take, List.length_replicate] at h3
    omega

/-- Claim C1 (amended): for every rendering longer than 1023 bytes, the
forwarded message is exactly the first 1022 bytes of the full rendering,
and the buffer write stays within the 1024-byte buffer (no overflow). -/
theorem C1_truncation_amended {C : Type} (s : BridgeState C) (cb : C)
    (hcb : s.rust_log = some cb) (file : String) (line : Int)
    (function : String) (err : Int) (rendered : List Char)
    (hlen : rendered.length > 1023) :
    alsa_error_handler s file line function err rendered =
      some ⟨cb, 3, "yotredash::alsa", rendered.take 1022⟩ ∧
    alsa_bytes_written rendered ≤ alsa_buffer_capacity := by
  constructor
  · show rust_log_call s 3 "yotredash::alsa"
      (vsnprintf_stored 1023 rendered) = _
    unfold rust_log_call vsnprintf_stored
    rw [hcb]
    rfl
  · simp only [alsa_bytes_written, vsnprintf_bytes_written, alsa_buffer_capacity]
    omega

/-- Witness for the amended C1 at the 1024-byte rendering
`replicate 1024 'a'` on a registered bridge. -/
theorem C1_truncation_amended_witness :
    (set_message_handler 0 (initState Nat)).rust_log = some 0 ∧
    (List.replicate 1024 'a').length > 1023 ∧
    (alsa_error_handler (set_message_handler 0 (initState Nat)) "" 0 "" 0
        (List.replicate 1024 'a') =
      some ⟨0, 3, "yotredash::alsa", (List.replicate 1024 'a').take 1022⟩ ∧
     alsa_bytes_written (List.replicate 1024 'a') ≤ alsa_buffer_capacity) :=
  ⟨rfl, by simp only [List.length_replicate]; omega,
   C1_truncation_amended (C := Nat) _ 0 rfl "" 0 "" 0 _
     (by simp only [List.length_replicate]; omega)⟩

/-- Claim C2 as stated is false: the 1023-byte rendering
`replicate 1023 'a'` has length ≤ 1023 bytes, yet the forwarded message is
not the complete rendering — the last byte is cut, because the `vsnprintf`
call can store at most 1022 content bytes. -/
theorem C2_counterexample :
    (List.replicate 1023 'a').length ≤ 1023 ∧
    (alsa_error_handler (set_message_handler 0 (initState Nat)) "" 0 "" 0
        (List.replicate 1023 'a')).map LogEvent.message ≠
      some (List.replicate 1023 'a') := by
  constructor
  · simp only [List.length_replicate]
    omega
  · intro h
    have hL : (alsa_error_handler (set_message_handler 0 (initState Nat))
        "" 0 "" 0 (List.replicate 1023 'a')).map LogEvent.message =
        some (vsnprintf_stored 1023 (List.replicate 1023 'a')) := rfl
    rw [hL] at h
    have h2 : vsnprintf_stored 1023 (List.replicate 1023 'a') =
        List.replicate 1023 'a' := Option.some.inj h
    have h3 := congrArg List.length h2
    simp only [vsnprintf_stored, List.length_take, List.length_replicate] at h3
    omega

/-- Claim C2 (amended): for every rendering of at most 1022 bytes, the
forwarded message is the exact, complete rendering. -/
theorem C2_exact_rendering_amended {C : Type} (s : BridgeState C) (cb : C)
    (hcb : s.rust_log = some cb) (file : String) (line : Int)
    (function : String) (err : Int) (rendered : List Char)
    (hlen : rendered.length ≤ 1022) :
    alsa_error_handler s file line function err rendered =
      some ⟨cb, 3, "yotredash::alsa", rendered⟩ := by
  show rust_log_call s 3 "yotredash::alsa"
    (vsnprintf_stored 1023 rendered) = _
  unfold rust_log_call vsnprintf_stored
  rw [hcb, List.take_of_length_le (by omega)]
  rfl

/-- Witness for the amended C2: the spec's scenario 1 message
"failed: device busy" is forwarded in full on a registered bridge. -/
theorem C2_exact_rendering_amended_witness :
    (set_message_handler 0 (initState Nat)).rust_log = some 0 ∧
    (String.toList "failed: device busy").length ≤ 1022 ∧
    alsa_error_handler (set_message_handler 0 (initState Nat)) "" 0 "" 0
        (String.toList "failed: device busy") =
      some ⟨0, 3, "yotredash::alsa", String.toList "failed: device busy"⟩ :=
  ⟨rfl, by decide, C2_exact_rendering_amended (C := Nat) _ 0 rfl "" 0 "" 0 _
    (by decide)⟩

end LibraryMessages
